import Mathlib

/-!
Verification of the `ffprobe3` Python wrapper library (file `ffprobe3/ffprobe3.py`).

Modelling conventions for this shallow embedding:

* Parsed JSON values (the output of `json.loads`) and the Python runtime values
  flowing through the wrapper classes are both modelled by the inductive type
  `JValue`; Python `None` and JSON `null` are conflated into `JValue.null`,
  exactly as they are conflated in the Python runtime.
* JSON objects are modelled as association lists with distinct keys
  (`json.loads` produces `dict`s, whose keys are unique strings).
* Python `float` values are modelled as exact rationals (`Rat`).  The numeric
  literals appearing in the claims are small and exactly representable at the
  precisions being formatted, so rounding of the binary representation does not
  affect any statement below.  `float()`/`int()` string conversion is modelled
  on the core decimal-literal syntax (sign, digits, decimal point, exponent,
  surrounding whitespace).
* Python exceptions are modelled by the inductive type `PyErr`; a Python
  function that may raise is embedded as a function into `Except PyErr _`.
  The repository's `exceptions` module itself is not present under `src/`;
  the `PyErr` constructors carry exactly the arguments passed at the `raise`
  sites in `ffprobe3.py`.
* The filesystem (`os.path.isfile`), the subprocess (`Popen`/`communicate`),
  and `json.loads` are external effects, modelled as oracle parameters.
-/

/-- A parsed-JSON / Python runtime value (see module docstring for conventions). -/
inductive JValue where
  | null
  | bool (b : Bool)
  | int (n : Int)
  | float (q : Rat)
  | str (s : String)
  | arr (elems : List JValue)
  | obj (entries : List (String × JValue))
  deriving Inhabited

/-- A JSON object subtree: the contents of a Python `dict` of parsed JSON. -/
abbrev JObj := List (String × JValue)

/-- Python exceptions raised by the code under verification.  The `ff`-prefixed
constructors are the exception classes of the `ffprobe3.exceptions` module,
carrying the arguments passed at the `raise` sites in `ffprobe3.py`. -/
inductive PyErr where
  | typeError
  | valueError
  | keyError (key : String)
  | attributeError
  | ffInvalidArgument (argName : String) (message : String)
  | ffStreamSubclass (className : String) (actual : JValue) (expected : String)
  | ffOverrideFile (path : String)
  | ffMediaFile (path : String)
  | ffJsonParse
  | ffSubprocess (cmdline : List String) (exitStatus : Int) (stderr : String)
  deriving Inhabited

/-- Dictionary lookup (`dict.__getitem__` success side): find the value bound
to `key`, if any.  JSON object keys are distinct, so first-match is dict lookup. -/
def jlookup (kvs : JObj) (key : String) : Option JValue :=
  match kvs with
  | [] => none
  | (k, v) :: rest => if k = key then some v else jlookup rest key

/-- Python whitespace characters stripped by `float(str)` / `int(str)`. -/
def isPyWs (c : Char) : Bool :=
  c = ' ' || c = '\t' || c = '\n' || c = '\x0d' || c = '\x0b' || c = '\x0c'

/-- Strip leading and trailing Python whitespace. -/
def trimWs (cs : List Char) : List Char :=
  ((cs.dropWhile isPyWs).reverse.dropWhile isPyWs).reverse

/-- Split off a leading run of decimal digits. -/
def takeDigits : List Char → List Char × List Char
  | [] => ([], [])
  | c :: cs =>
    if c.isDigit then
      let (ds, rest) := takeDigits cs
      (c :: ds, rest)
    else ([], c :: cs)

/-- Numeric value of a digit run. -/
def digitsToNat (ds : List Char) : Nat :=
  ds.foldl (fun a c => 10 * a + (c.toNat - 48)) 0

/-- Consume an optional leading sign. -/
def parseSign : List Char → Int × List Char
  | '+' :: cs => (1, cs)
  | '-' :: cs => (-1, cs)
  | cs => (1, cs)

/-- Parse the optional exponent tail of a Python float literal (must consume
the whole remaining input). -/
def parseExpPart : List Char → Option Int
  | [] => some 0
  | c :: cs =>
    if c = 'e' || c = 'E' then
      let (sg, cs') := parseSign cs
      let (ds, rest) := takeDigits cs'
      if ds.isEmpty || !rest.isEmpty then none else some (sg * (digitsToNat ds : Int))
    else none

/-- Parse the core decimal syntax accepted by Python `float(str)`:
`[sign] digits [. digits] [(e|E) [sign] digits]`, with at least one mantissa
digit. -/
def parseFloatChars (cs : List Char) : Option Rat :=
  let (sg, cs1) := parseSign cs
  let (ip, cs2) := takeDigits cs1
  match cs2 with
  | '.' :: cs3 =>
    let (fp, cs4) := takeDigits cs3
    if ip.isEmpty && fp.isEmpty then none
    else (parseExpPart cs4).map fun e =>
      (sg : Rat) * ((digitsToNat ip : Rat) + (digitsToNat fp : Rat) / (10 : Rat) ^ fp.length)
        * (10 : Rat) ^ e
  | rest =>
    if ip.isEmpty then none
    else (parseExpPart rest).map fun e =>
      (sg : Rat) * (digitsToNat ip : Rat) * (10 : Rat) ^ e

/-- Python `float(s)` for a string argument. -/
def pyStrToFloat (s : String) : Option Rat :=
  parseFloatChars (trimWs s.data)

/-- Python `int(s)` for a string argument: `[sign] digits` only. -/
def pyStrToInt (s : String) : Option Int :=
  let cs := trimWs s.data
  let (sg, cs1) := parseSign cs
  let (ds, rest) := takeDigits cs1
  if ds.isEmpty || !rest.isEmpty then none else some (sg * (digitsToNat ds : Int))

/-- Truncation toward zero, as performed by Python `int(float)`. -/
def ratTruncToInt (q : Rat) : Int :=
  if 0 ≤ q then ⌊q⌋ else ⌈q⌉

/-- Python builtin `float(x)` on a parsed-JSON value: succeeds on numbers,
bools and numeric strings; raises `TypeError` on `None`/lists/dicts and
`ValueError` on non-numeric strings. -/
def pyFloat : JValue → Except PyErr Rat
  | .int n => .ok (n : Rat)
  | .float q => .ok q
  | .bool b => .ok (if b then 1 else 0)
  | .str s =>
    match pyStrToFloat s with
    | some q => .ok q
    | none => .error .valueError
  | _ => .error .typeError

/-- Python builtin `int(x)` on a parsed-JSON value. -/
def pyInt : JValue → Except PyErr Int
  | .int n => .ok n
  | .float q => .ok (ratTruncToInt q)
  | .bool b => .ok (if b then 1 else 0)
  | .str s =>
    match pyStrToInt s with
    | some n => .ok n
    | none => .error .valueError
  | _ => .error .typeError

/-- Round a rational to the nearest integer, ties to even: the rounding used
by Python float formatting. -/
def ratRoundHalfEven (x : Rat) : Int :=
  let f := ⌊x⌋
  let r := x - (f : Rat)
  if r < 1/2 then f
  else if 1/2 < r then f + 1
  else if f % 2 = 0 then f else f + 1

/-- Zero-pad a digit string on the left to width `w`. -/
def padZeros (s : String) (w : Nat) : String :=
  if s.length < w then String.mk (List.replicate (w - s.length) '0') ++ s else s

/-- Python `"%02d" % n`: decimal rendering zero-padded to total width 2
(the sign, if any, counts toward the width). -/
def fmt02d (n : Int) : String :=
  if n < 0 then "-" ++ padZeros (toString n.natAbs) 1
  else padZeros (toString n.natAbs) 2

/-- Python `"%.p f"`-style fixed-point rendering of a rational with `prec`
fractional digits (round half to even); also models `"%3.1f"` and `"%02.2f"`,
whose widths never exceed the rendered length. -/
def fmtFixed (x : Rat) (prec : Nat) : String :=
  let m := ratRoundHalfEven (x * ((10 : Rat) ^ prec))
  let mag := m.natAbs
  let sign := if x < 0 then "-" else ""
  sign ++ toString (mag / 10 ^ prec) ++ "." ++ padZeros (toString (mag % 10 ^ prec)) prec

/-- Dictionary equality test between a parsed-JSON value and a Python string
(Python `==`): true exactly when the value is that string.  Used by the
`codec_type` comparisons in `FFstream.is_attachment` / `is_audio` /
`is_subtitle` / `is_video` and by the stream-variant constructors. -/
def jeqStr (v : JValue) (s : String) : Bool :=
  match v with
  | .str t => t = s
  | _ => false

/-- The try-block body of `ParsedJson.__getitem__`: `self.parsed_json[key]`,
raising `KeyError` when absent. -/
def ParsedJson.getItem (kvs : JObj) (key : String) : Except PyErr JValue :=
  match jlookup kvs key with
  | some v => .ok v
  | none => .error (.keyError key)

/-- Method `ParsedJson.get(key, default)`: `dict.get`, never raises. -/
def ParsedJson.get (kvs : JObj) (key : String) (dflt : JValue) : JValue :=
  (jlookup kvs key).getD dflt

/-- Try-block body of method `ParsedJson.get_as_float`:
`float(self.parsed_json[key])` (may raise `KeyError` / `TypeError` /
`ValueError`). -/
def ParsedJson.get_as_float_body (kvs : JObj) (key : String) : Except PyErr JValue :=
  match ParsedJson.getItem kvs key with
  | .error e => .error e
  | .ok v =>
    match pyFloat v with
    | .error e => .error e
    | .ok q => .ok (.float q)

/-- Method `ParsedJson.get_as_float(key, default)`: the try-block body with a
catch-all `except` returning `default`. -/
def ParsedJson.get_as_float (kvs : JObj) (key : String) (dflt : JValue) : JValue :=
  match ParsedJson.get_as_float_body kvs key with
  | .ok v => v
  | .error _ => dflt

/-- Try-block body of method `ParsedJson.get_as_int`:
`int(self.parsed_json[key])`. -/
def ParsedJson.get_as_int_body (kvs : JObj) (key : String) : Except PyErr JValue :=
  match ParsedJson.getItem kvs key with
  | .error e => .error e
  | .ok v =>
    match pyInt v with
    | .error e => .error e
    | .ok n => .ok (.int n)

/-- Method `ParsedJson.get_as_int(key, default)`: the try-block body with a
catch-all `except` returning `default`. -/
def ParsedJson.get_as_int (kvs : JObj) (key : String) (dflt : JValue) : JValue :=
  match ParsedJson.get_as_int_body kvs key with
  | .ok v => v
  | .error _ => dflt

/-- The unit-prefix list iterated by `get_datasize_as_human`. -/
def dsUnits : List String := ["", "k", "M", "G", "T", "P", "E", "Z"]

/-- The divisor chosen by `get_datasize_as_human`: 1000.0 in base-10 mode
(the default, matching `ls -lh`), 1024.0 in base-2 mode. -/
def dsDivisor (use_base_10 : Bool) : Rat :=
  if use_base_10 then 1000 else 1024

/-- The `for unit in [...]` loop of `get_datasize_as_human`: while the
magnitude is at least `divisor`, divide and advance to the next unit; after
the list is exhausted, render with the clamped `Y`/`Yi` unit. -/
def dsLoop (use_base_10 : Bool) (suffix : String) (divisor : Rat) :
    Rat → List String → String
  | num, [] =>
    fmtFixed num 1 ++ " " ++ (if use_base_10 then "Y" else "Yi") ++ suffix
  | num, unit :: rest =>
    if |num| < divisor then
      if unit ≠ "" ∧ use_base_10 = false then
        fmtFixed num 1 ++ " " ++ unit ++ "i" ++ suffix
      else
        fmtFixed num 1 ++ " " ++ unit ++ suffix
    else dsLoop use_base_10 suffix divisor (num / divisor) rest

/-- Try-block body of method `ParsedJson.get_datasize_as_human`:
`float(self.parsed_json[key])` followed by the (total) unit loop. -/
def ParsedJson.get_datasize_as_human_body (kvs : JObj) (key suffix : String)
    (use_base_10 : Bool) : Except PyErr JValue :=
  match ParsedJson.getItem kvs key with
  | .error e => .error e
  | .ok v =>
    match pyFloat v with
    | .error e => .error e
    | .ok q => .ok (.str (dsLoop use_base_10 suffix (dsDivisor use_base_10) q dsUnits))

/-- Method `ParsedJson.get_datasize_as_human(key, suffix, default, use_base_10)`:
the try-block body with a catch-all `except` returning `default`. -/
def ParsedJson.get_datasize_as_human (kvs : JObj) (key suffix : String)
    (dflt : JValue) (use_base_10 : Bool) : JValue :=
  match ParsedJson.get_datasize_as_human_body kvs key suffix use_base_10 with
  | .ok v => v
  | .error _ => dflt

/-- The arithmetic and rendering of `get_duration_as_human` after the
`"duration"` value has been converted to float: successive floor-division by
60 and `"%02d:%02d:%02.2f"` rendering (note: the seconds field of the source
uses width 2, not width 5, so seconds below 10 are not zero-padded). -/
def durationRender (duration_secs : Rat) : String :=
  let duration_mins : Rat := (⌊duration_secs / 60⌋ : Int)
  let secs : Rat := duration_secs - duration_mins * 60
  let duration_hours : Rat := (⌊duration_mins / 60⌋ : Int)
  let mins : Rat := duration_mins - duration_hours * 60
  fmt02d (ratTruncToInt duration_hours) ++ ":" ++ fmt02d (ratTruncToInt mins)
    ++ ":" ++ fmtFixed secs 2

/-- Try-block body of method `ParsedJson.get_duration_as_human`:
`float(self.parsed_json["duration"])` followed by (total) arithmetic and
rendering. -/
def ParsedJson.get_duration_as_human_body (kvs : JObj) : Except PyErr JValue :=
  match ParsedJson.getItem kvs "duration" with
  | .error e => .error e
  | .ok v =>
    match pyFloat v with
    | .error e => .error e
    | .ok q => .ok (.str (durationRender q))

/-- Method `ParsedJson.get_duration_as_human(default)`: the try-block body
with a catch-all `except` returning `default`. -/
def ParsedJson.get_duration_as_human (kvs : JObj) (dflt : JValue) : JValue :=
  match ParsedJson.get_duration_as_human_body kvs with
  | .ok v => v
  | .error _ => dflt

/-- The data attributes set by `FFstream.__init__` (shared by all stream
variants): the referenced subtree plus the eagerly extracted fields. -/
structure FFstreamBase where
  parsed_json : JObj
  index : JValue
  codec_type : JValue
  codec_name : JValue
  codec_long_name : JValue
  duration_secs : JValue
  deriving Inhabited

/-- Field extraction of `FFstream.__init__` on a mapping subtree. -/
def FFstreamBase.ofObj (kvs : JObj) : FFstreamBase where
  parsed_json := kvs
  index := ParsedJson.get kvs "index" .null
  codec_type := ParsedJson.get kvs "codec_type" .null
  codec_name := ParsedJson.get kvs "codec_name" .null
  codec_long_name := ParsedJson.get kvs "codec_long_name" .null
  duration_secs := ParsedJson.get_as_float kvs "duration" .null

/-- The additional data attributes set by `FFaudioStream.__init__`. -/
structure FFaudioFields where
  num_channels : JValue
  num_frames : JValue
  channel_layout : JValue
  sample_rate_Hz : JValue
  bit_rate_bps : JValue
  bit_rate_kbps : JValue
  deriving Inhabited

/-- The additional data attributes set by `FFvideoStream.__init__`. -/
structure FFvideoFields where
  width : JValue
  height : JValue
  avg_frame_rate : JValue
  num_frames : JValue
  bit_rate_bps : JValue
  bit_rate_kbps : JValue
  deriving Inhabited

/-- A constructed stream wrapper: which class was instantiated, its shared
`FFstream` attributes, and the variant-specific attributes. -/
inductive FFstreamObj where
  | generic (base : FFstreamBase)
  | attachment (base : FFstreamBase)
  | audio (base : FFstreamBase) (fields : FFaudioFields)
  | subtitle (base : FFstreamBase)
  | video (base : FFstreamBase) (fields : FFvideoFields)
  deriving Inhabited

/-- The shared `FFstream` attributes of any stream wrapper. -/
def FFstreamObj.base : FFstreamObj → FFstreamBase
  | .generic b => b
  | .attachment b => b
  | .audio b _ => b
  | .subtitle b => b
  | .video b _ => b

/-- Method `FFstream.is_attachment`: `self.codec_type == 'attachment'`. -/
def FFstreamObj.is_attachment (s : FFstreamObj) : Bool :=
  jeqStr s.base.codec_type "attachment"

/-- Method `FFstream.is_audio`: `self.codec_type == 'audio'`. -/
def FFstreamObj.is_audio (s : FFstreamObj) : Bool :=
  jeqStr s.base.codec_type "audio"

/-- Method `FFstream.is_subtitle`: `self.codec_type == 'subtitle'`. -/
def FFstreamObj.is_subtitle (s : FFstreamObj) : Bool :=
  jeqStr s.base.codec_type "subtitle"

/-- Method `FFstream.is_video`: `self.codec_type == 'video'`. -/
def FFstreamObj.is_video (s : FFstreamObj) : Bool :=
  jeqStr s.base.codec_type "video"

/-- Constructor `FFstream(parsed_json)`: `ParsedJson.__init__` rejects
non-mapping arguments with `FFprobeInvalidArgumentError`, then the shared
fields are extracted. -/
def FFstream.init (pj : JValue) : Except PyErr FFstreamObj :=
  match pj with
  | .obj kvs => .ok (.generic (FFstreamBase.ofObj kvs))
  | _ => .error (.ffInvalidArgument "parsed_json"
      "Supplied parsed JSON is not a dictionary")

/-- The `try: self.bit_rate_kbps = float(self.bit_rate_bps) / 1000.0
except (TypeError, ValueError): self.bit_rate_kbps = None` construction shared
by `FFformat`, `FFaudioStream` and `FFvideoStream` (the `except` clause covers
every failure of `float()`). -/
def deriveKbps (bit_rate_bps : JValue) : JValue :=
  match pyFloat bit_rate_bps with
  | .ok q => .float (q / 1000)
  | .error _ => .null

/-- Constructor `FFattachmentStream(parsed_json)`: base construction, then
fail-fast kind validation. -/
def FFattachmentStream.init (pj : JValue) : Except PyErr FFstreamObj :=
  match pj with
  | .obj kvs =>
    let base := FFstreamBase.ofObj kvs
    if jeqStr base.codec_type "attachment" then .ok (.attachment base)
    else .error (.ffStreamSubclass "FFattachmentStream" base.codec_type "attachment")
  | _ => .error (.ffInvalidArgument "parsed_json"
      "Supplied parsed JSON is not a dictionary")

/-- Constructor `FFaudioStream(parsed_json)`: base construction, fail-fast
kind validation, then audio field extraction. -/
def FFaudioStream.init (pj : JValue) : Except PyErr FFstreamObj :=
  match pj with
  | .obj kvs =>
    let base := FFstreamBase.ofObj kvs
    if jeqStr base.codec_type "audio" then
      let bps := ParsedJson.get_as_int kvs "bit_rate" .null
      .ok (.audio base
        { num_channels := ParsedJson.get_as_int kvs "channels" .null
          num_frames := ParsedJson.get_as_int kvs "nb_frames" .null
          channel_layout := ParsedJson.get kvs "channel_layout" .null
          sample_rate_Hz := ParsedJson.get_as_int kvs "sample_rate" .null
          bit_rate_bps := bps
          bit_rate_kbps := deriveKbps bps })
    else .error (.ffStreamSubclass "FFaudioStream" base.codec_type "audio")
  | _ => .error (.ffInvalidArgument "parsed_json"
      "Supplied parsed JSON is not a dictionary")

/-- Constructor `FFsubtitleStream(parsed_json)`: base construction, then
fail-fast kind validation. -/
def FFsubtitleStream.init (pj : JValue) : Except PyErr FFstreamObj :=
  match pj with
  | .obj kvs =>
    let base := FFstreamBase.ofObj kvs
    if jeqStr base.codec_type "subtitle" then .ok (.subtitle base)
    else .error (.ffStreamSubclass "FFsubtitleStream" base.codec_type "subtitle")
  | _ => .error (.ffInvalidArgument "parsed_json"
      "Supplied parsed JSON is not a dictionary")

/-- Constructor `FFvideoStream(parsed_json)`: base construction, fail-fast
kind validation, then video field extraction. -/
def FFvideoStream.init (pj : JValue) : Except PyErr FFstreamObj :=
  match pj with
  | .obj kvs =>
    let base := FFstreamBase.ofObj kvs
    if jeqStr base.codec_type "video" then
      let bps := ParsedJson.get_as_int kvs "bit_rate" .null
      .ok (.video base
        { width := ParsedJson.get_as_int kvs "width" .null
          height := ParsedJson.get_as_int kvs "height" .null
          avg_frame_rate := ParsedJson.get kvs "avg_frame_rate" .null
          num_frames := ParsedJson.get_as_int kvs "nb_frames" .null
          bit_rate_bps := bps
          bit_rate_kbps := deriveKbps bps })
    else .error (.ffStreamSubclass "FFvideoStream" base.codec_type "video")
  | _ => .error (.ffInvalidArgument "parsed_json"
      "Supplied parsed JSON is not a dictionary")

/-- The four known stream kinds: keys of `_KNOWN_FFSTREAM_SUBCLASSES`. -/
inductive StreamKind where
  | attachment
  | audio
  | subtitle
  | video
  deriving DecidableEq, Inhabited

/-- Which known kind, if any, a kind string names. -/
def kindOfString (s : String) : Option StreamKind :=
  if s = "attachment" then some .attachment
  else if s = "audio" then some .audio
  else if s = "subtitle" then some .subtitle
  else if s = "video" then some .video
  else none

/-- The lookup `_KNOWN_FFSTREAM_SUBCLASSES.get(codec_type)`: a Python `dict`
lookup whose key is the raw `codec_type` value.  An unhashable key (a JSON
list or object) raises `TypeError`; any other non-matching key misses. -/
def knownSubclassLookup : JValue → Except PyErr (Option StreamKind)
  | .arr _ => .error .typeError
  | .obj _ => .error .typeError
  | .str s => .ok (kindOfString s)
  | _ => .ok none

/-- The dispatcher `_construct_ffstream_subclass(parsed_json)`:
`parsed_json.get('codec_type')` (an `AttributeError` if the subtree is not a
dict), then dispatch on the known-subclass table, falling back to plain
`FFstream`. -/
def construct_ffstream_subclass (pj : JValue) : Except PyErr FFstreamObj :=
  match pj with
  | .obj kvs =>
    match ParsedJson.get kvs "codec_type" .null with
    | .null => FFstream.init pj
    | ct =>
      match knownSubclassLookup ct with
      | .error e => .error e
      | .ok none => FFstream.init pj
      | .ok (some .attachment) => FFattachmentStream.init pj
      | .ok (some .audio) => FFaudioStream.init pj
      | .ok (some .subtitle) => FFsubtitleStream.init pj
      | .ok (some .video) => FFvideoStream.init pj
  | _ => .error .attributeError

/-- The data attributes set by `FFformat.__init__`. -/
structure FFformatObj where
  parsed_json : JObj
  format_name : JValue
  format_long_name : JValue
  duration_secs : JValue
  duration_human : JValue
  num_streams : JValue
  bit_rate_bps : JValue
  bit_rate_kbps : JValue
  size_B : JValue
  size_human : JValue
  deriving Inhabited

/-- Constructor `FFformat(parsed_json)`: mapping check, then eager field
extraction with coercion-to-default. -/
def FFformat.init (pj : JValue) : Except PyErr FFformatObj :=
  match pj with
  | .obj kvs =>
    let bps := ParsedJson.get_as_int kvs "bit_rate" .null
    .ok {
      parsed_json := kvs
      format_name := ParsedJson.get kvs "format_name" .null
      format_long_name := ParsedJson.get kvs "format_long_name" .null
      duration_secs := ParsedJson.get_as_float kvs "duration" .null
      duration_human := ParsedJson.get_duration_as_human kvs .null
      num_streams := ParsedJson.get_as_int kvs "nb_streams" .null
      bit_rate_bps := bps
      bit_rate_kbps := deriveKbps bps
      size_B := ParsedJson.get_as_int kvs "size" .null
      size_human := ParsedJson.get_datasize_as_human kvs "size" "B" .null true }
  | _ => .error (.ffInvalidArgument "parsed_json"
      "Supplied parsed JSON is not a dictionary")

/-- The data attributes set by `FFchapter.__init__`. -/
structure FFchapterObj where
  parsed_json : JObj
  id : JValue
  title : JValue
  deriving Inhabited

/-- The `try: self.title = self['tags']['title'] except: None` of
`FFchapter.__init__`: a missing `"tags"` key, a non-dict `"tags"` value, or a
missing `"title"` key all collapse to `None`. -/
def chapterTitle (kvs : JObj) : JValue :=
  match jlookup kvs "tags" with
  | some (.obj tags) => (jlookup tags "title").getD .null
  | _ => .null

/-- Constructor `FFchapter(parsed_json)`: mapping check, then field extraction. -/
def FFchapter.init (pj : JValue) : Except PyErr FFchapterObj :=
  match pj with
  | .obj kvs =>
    .ok { parsed_json := kvs
          id := ParsedJson.get kvs "id" .null
          title := chapterTitle kvs }
  | _ => .error (.ffInvalidArgument "parsed_json"
      "Supplied parsed JSON is not a dictionary")

/-- Python iteration over the value found at `"streams"`/`"chapters"`
(`for stream in self.get("streams", [])`): lists yield their elements, dicts
yield their keys, strings yield their one-character substrings, other values
raise `TypeError`. -/
def iterAsPyList : JValue → Except PyErr (List JValue)
  | .arr xs => .ok xs
  | .obj kvs => .ok (kvs.map fun p => .str p.1)
  | .str s => .ok (s.data.map fun c => .str (String.mk [c]))
  | _ => .error .typeError

/-- The `streams` list comprehension of `FFprobe.__init__`: construct a
dispatched stream wrapper for each subtree, in order, propagating the first
error. -/
def constructStreams : List JValue → Except PyErr (List FFstreamObj)
  | [] => .ok []
  | x :: rest =>
    match construct_ffstream_subclass x with
    | .error e => .error e
    | .ok s =>
      match constructStreams rest with
      | .error e => .error e
      | .ok ss => .ok (s :: ss)

/-- The `chapters` list comprehension of `FFprobe.__init__`. -/
def constructChapters : List JValue → Except PyErr (List FFchapterObj)
  | [] => .ok []
  | x :: rest =>
    match FFchapter.init x with
    | .error e => .error e
    | .ok c =>
      match constructChapters rest with
      | .error e => .error e
      | .ok cs => .ok (c :: cs)

/-- The data attributes set by `FFprobe.__init__`. -/
structure FFprobeRes where
  split_cmdline : List String
  executed_cmd : String
  media_file_path : String
  parsed_json : JObj
  format : FFformatObj
  streams : List FFstreamObj
  chapters : List FFchapterObj
  attachment : List FFstreamObj
  audio : List FFstreamObj
  subtitle : List FFstreamObj
  video : List FFstreamObj
  deriving Inhabited

/-- Constructor `FFprobe(split_cmdline, parsed_json)`: command-line length
validation, mapping check, then format/stream/chapter construction and the
four derived classification lists.  (The `split_cmdline` argument is typed
`List String` here, so the source's string-ness checks on the command line
hold by construction.) -/
def FFprobe.init (split_cmdline : List String) (pj : JValue) :
    Except PyErr FFprobeRes :=
  if split_cmdline.length < 2 then
    .error (.ffInvalidArgument "split_cmdline"
      "Supplied split command-line has too few elements")
  else
    match pj with
    | .obj kvs =>
      match FFformat.init (ParsedJson.get kvs "format" (.obj [])) with
      | .error e => .error e
      | .ok format =>
        match iterAsPyList (ParsedJson.get kvs "streams" (.arr [])) with
        | .error e => .error e
        | .ok streamElems =>
          match constructStreams streamElems with
          | .error e => .error e
          | .ok streams =>
            match iterAsPyList (ParsedJson.get kvs "chapters" (.arr [])) with
            | .error e => .error e
            | .ok chapterElems =>
              match constructChapters chapterElems with
              | .error e => .error e
              | .ok chapters =>
                .ok {
                  split_cmdline := split_cmdline
                  executed_cmd := split_cmdline.headD ""
                  media_file_path := split_cmdline.getLastD ""
                  parsed_json := kvs
                  format := format
                  streams := streams
                  chapters := chapters
                  attachment := streams.filter FFstreamObj.is_attachment
                  audio := streams.filter FFstreamObj.is_audio
                  subtitle := streams.filter FFstreamObj.is_subtitle
                  video := streams.filter FFstreamObj.is_video }
    | _ => .error (.ffInvalidArgument "parsed_json"
        "Supplied parsed JSON is not a dictionary")

/-- The module-level `_SPLIT_COMMAND_LINE` base argument list. -/
def SPLIT_COMMAND_LINE : List String :=
  ["ffprobe", "-v", "error", "-print_format", "json",
   "-show_chapters", "-show_format", "-show_streams"]

/-- The Python value supplied for the `communicate_timeout` keyword argument
of `probe` (any object may be passed; these cover `None`, the numeric types
including `bool`, and strings as representative non-numeric objects). -/
inductive TimeoutVal where
  | pynone
  | pyint (n : Int)
  | pybool (b : Bool)
  | pyfloat (q : Rat)
  | pystr (s : String)
  deriving DecidableEq, Inhabited

/-- The check `isinstance(communicate_timeout, (int, float))`: Python `bool`
is a subclass of `int`. -/
def timeoutIsNumeric : TimeoutVal → Bool
  | .pyint _ => true
  | .pybool _ => true
  | .pyfloat _ => true
  | _ => false

/-- The numeric value of a numeric timeout argument (`True == 1`,
`False == 0`). -/
def timeoutAsRat : TimeoutVal → Rat
  | .pyint n => (n : Rat)
  | .pybool b => if b then 1 else 0
  | .pyfloat q => q
  | _ => 0

/-- The `communicate_timeout` validation block of `probe`: a `None` timeout is
accepted unchecked; otherwise non-numeric and non-positive values are rejected
with `FFprobeInvalidArgumentError`. -/
def validateTimeout : TimeoutVal → Except PyErr Unit
  | .pynone => .ok ()
  | t =>
    if timeoutIsNumeric t = false then
      .error (.ffInvalidArgument "communicate_timeout"
        "Supplied timeout is non-None and non-numeric")
    else if timeoutAsRat t ≤ 0 then
      .error (.ffInvalidArgument "communicate_timeout"
        "Supplied timeout is non-None and non-positive")
    else .ok ()

/-- Whether the supplied timeout argument is a positive number (the property
named by the specification). -/
def timeoutIsPositiveNumber (t : TimeoutVal) : Bool :=
  timeoutIsNumeric t && decide (0 < timeoutAsRat t)

/-- The regular expression `_URI_SCHEME = "^[a-z][a-z0-9-]*://"`.  Greedy
matching of the character class is equivalent to backtracking here because
`':'` is not in the class. -/
def uriSchemeMatch (s : String) : Bool :=
  match s.data with
  | [] => false
  | c :: rest =>
    ('a' ≤ c && c ≤ 'z') &&
      match rest.dropWhile (fun d =>
          ('a' ≤ d && d ≤ 'z') || ('0' ≤ d && d ≤ '9') || d = '-') with
      | ':' :: '/' :: '/' :: _ => true
      | _ => false

/-- The keyword arguments of `probe`. -/
structure ProbeArgs where
  path_to_media : String
  communicate_timeout : TimeoutVal
  ffprobe_cmd_override : Option String
  verify_local_mediafile : Bool

/-- The `ffprobe_cmd_override` block of `probe`: a missing override file is
rejected; otherwise the override replaces `split_cmdline[0]`. -/
def checkOverride (isfile : String → Bool) :
    Option String → Except PyErr (List String)
  | none => .ok SPLIT_COMMAND_LINE
  | some ov =>
    if isfile ov then .ok (ov :: SPLIT_COMMAND_LINE.tail)
    else .error (.ffOverrideFile ov)

/-- Everything `probe` does before `subprocess.Popen` is reached: override
check, timeout validation, optional local-media-file existence check, then the
final command line (with the media path appended) that would be spawned.
The filesystem is the oracle `isfile`. -/
def probePreSpawn (isfile : String → Bool) (a : ProbeArgs) :
    Except PyErr (List String) :=
  match checkOverride isfile a.ffprobe_cmd_override with
  | .error e => .error e
  | .ok split_cmdline =>
    match validateTimeout a.communicate_timeout with
    | .error e => .error e
    | .ok _ =>
      if a.verify_local_mediafile && !uriSchemeMatch a.path_to_media
          && !isfile a.path_to_media then
        .error (.ffMediaFile a.path_to_media)
      else
        .ok (split_cmdline ++ [a.path_to_media])

/-- The outcome of the spawned subprocess after `communicate` (including the
timeout-kill-drain path): captured stdout and stderr text and the exit status. -/
structure SubprocessOutcome where
  stdout : String
  stderr : String
  exit_status : Int

/-- Everything `probe` does after the subprocess completes (lines 358-366 of
`ffprobe3.py`): decode stdout as JSON (`json.loads` is the oracle `loads`;
a decode failure raises `FFprobeJsonParseError`), then check the exit status,
then construct the `FFprobe` result. -/
def probePost (loads : String → Option JValue) (outs errs : String)
    (exit_status : Int) (split_cmdline : List String) :
    Except PyErr FFprobeRes :=
  match loads outs with
  | none => .error .ffJsonParse
  | some parsed_json =>
    if exit_status ≠ 0 then .error (.ffSubprocess split_cmdline exit_status errs)
    else FFprobe.init split_cmdline parsed_json

/-- The whole of `probe` on the success path of `Popen` itself: the pre-spawn
phase, then the subprocess oracle `exec`, then the post-completion phase.
(`Popen`-raising paths such as `FFprobeExecutableError` are outside the claims
under verification.) -/
def probeRun (isfile : String → Bool) (exec : List String → SubprocessOutcome)
    (loads : String → Option JValue) (a : ProbeArgs) : Except PyErr FFprobeRes :=
  match probePreSpawn isfile a with
  | .error e => .error e
  | .ok cmd => probePost loads (exec cmd).stdout (exec cmd).stderr
      (exec cmd).exit_status cmd

/-- Auxiliary: `String.append` is associative. -/
theorem string_append_assoc : ∀ (a b c : String), a ++ b ++ c = a ++ (b ++ c)
  | ⟨xs⟩, ⟨ys⟩, ⟨zs⟩ => congrArg String.mk (List.append_assoc xs ys zs)

/-- The failure condition of a `float(self.parsed_json[key])` lookup: the key
is absent, or the value cannot be converted to float. -/
def floatLookupFails (kvs : JObj) (key : String) : Prop :=
  jlookup kvs key = none ∨ ∃ v, jlookup kvs key = some v ∧ ∃ e, pyFloat v = .error e

/-- The failure condition of an `int(self.parsed_json[key])` lookup: the key
is absent, or the value cannot be converted to int. -/
def intLookupFails (kvs : JObj) (key : String) : Prop :=
  jlookup kvs key = none ∨ ∃ v, jlookup kvs key = some v ∧ ∃ e, pyInt v = .error e

/-- C2: the two example renderings of the specification do hold of
`get_duration_as_human` (3854.80 seconds renders as "01:04:14.80" and 30.998
as "00:00:31.00"), but the claimed `"%02d:%02d:%05.2f"` zero-padded rendering
does not: the source formats the seconds field with `"%02.2f"`, whose width 2
never pads, so 65 seconds renders as "00:01:5.00" instead of the "00:01:05.00"
required by the claimed format string (and by the method's own docstring
`"HH:MM:SS.ss"`). -/
theorem C2_duration_format_examples_and_padding_bug :
    ParsedJson.get_duration_as_human [("duration", .str "3854.80")] .null
      = .str "01:04:14.80"
    ∧ ParsedJson.get_duration_as_human [("duration", .str "30.998")] .null
      = .str "00:00:31.00"
    ∧ ParsedJson.get_duration_as_human [("duration", .int 65)] .null
      = .str "00:01:5.00"
    ∧ "00:01:5.00" ≠ "00:01:05.00" := by
  refine ⟨by with_unfolding_all rfl, by with_unfolding_all rfl,
    by with_unfolding_all rfl, by decide⟩

/-- C4: the coercion/formatting getters `get`, `get_as_float`, `get_as_int`,
`get_datasize_as_human` and `get_duration_as_human` are total functions of
this embedding (they never raise: each wraps its fallible try-block body in a
catch-all `except`), and on any failure — key absent, or value not convertible
to the target type — each returns the caller-supplied default `dflt` (whose
Python default value is `None`, i.e. `JValue.null`). -/
theorem C4_getters_never_raise_return_default (kvs : JObj) (key suffix : String)
    (dflt : JValue) (use10 : Bool) :
    (jlookup kvs key = none → ParsedJson.get kvs key dflt = dflt)
    ∧ (floatLookupFails kvs key →
        ParsedJson.get_as_float kvs key dflt = dflt
        ∧ ParsedJson.get_datasize_as_human kvs key suffix dflt use10 = dflt)
    ∧ (intLookupFails kvs key → ParsedJson.get_as_int kvs key dflt = dflt)
    ∧ (floatLookupFails kvs "duration" →
        ParsedJson.get_duration_as_human kvs dflt = dflt) := by
  refine ⟨?_, ?_, ?_, ?_⟩
  · intro h
    simp [ParsedJson.get, h]
  · intro h
    constructor
    · rcases h with h | ⟨v, hv, e, he⟩ <;>
        simp [ParsedJson.get_as_float, ParsedJson.get_as_float_body,
          ParsedJson.getItem, *]
    · rcases h with h | ⟨v, hv, e, he⟩ <;>
        simp [ParsedJson.get_datasize_as_human,
          ParsedJson.get_datasize_as_human_body, ParsedJson.getItem, *]
  · rintro (h | ⟨v, hv, e, he⟩) <;>
      simp [ParsedJson.get_as_int, ParsedJson.get_as_int_body,
        ParsedJson.getItem, *]
  · rintro (h | ⟨v, hv, e, he⟩) <;>
      simp [ParsedJson.get_duration_as_human,
        ParsedJson.get_duration_as_human_body, ParsedJson.getItem, *]

/-- C4 witness: at the concrete object `{"x": []}` the float getter, int
getter, datasize getter and duration getter all return the supplied default
(the list value is not float- or int-convertible and `"duration"` is absent). -/
theorem C4_witness :
    ParsedJson.get_as_float [("x", .arr [])] "x" (.str "D") = .str "D"
    ∧ ParsedJson.get_datasize_as_human [("x", .arr [])] "x" "B" (.str "D") true = .str "D"
    ∧ ParsedJson.get_as_int [("x", .arr [])] "x" (.str "D") = .str "D"
    ∧ ParsedJson.get_duration_as_human [("x", .arr [])] (.str "D") = .str "D" := by
  have h := C4_getters_never_raise_return_default [("x", .arr [])] "x" "B" (.str "D") true
  have hf : floatLookupFails [("x", JValue.arr [])] "x" :=
    Or.inr ⟨.arr [], rfl, .typeError, rfl⟩
  have hi : intLookupFails [("x", JValue.arr [])] "x" :=
    Or.inr ⟨.arr [], rfl, .typeError, rfl⟩
  have hd : floatLookupFails [("x", JValue.arr [])] "duration" := Or.inl rfl
  exact ⟨(h.2.1 hf).1, (h.2.1 hf).2, h.2.2.1 hi, h.2.2.2 hd⟩

/-- Auxiliary: `get_as_int` with default `None` yields either `None` or an
int value. -/
theorem get_as_int_null_or_int (kvs : JObj) (key : String) :
    ParsedJson.get_as_int kvs key .null = .null
    ∨ ∃ n : Int, ParsedJson.get_as_int kvs key .null = .int n := by
  unfold ParsedJson.get_as_int ParsedJson.get_as_int_body
  rcases h : ParsedJson.getItem kvs key with e | v
  · simp
  · rcases hn : pyInt v with e | n
    · simp [hn]
    · exact Or.inr ⟨n, by simp [hn]⟩

/-- Auxiliary: `get_as_int` with default `None` yields `None` exactly when the
key is absent or the value is not int-convertible. -/
theorem get_as_int_eq_null_iff (kvs : JObj) (key : String) :
    ParsedJson.get_as_int kvs key .null = .null ↔ intLookupFails kvs key := by
  unfold ParsedJson.get_as_int ParsedJson.get_as_int_body ParsedJson.getItem
    intLookupFails
  rcases h : jlookup kvs key with _ | v
  · simp
  · rcases hn : pyInt v with e | n <;> simp [hn]

/-- The conjunction of C5 for one pair of extracted attributes. -/
def kbpsDerived (kvs : JObj) (bps kbps : JValue) : Prop :=
  bps = ParsedJson.get_as_int kvs "bit_rate" .null
  ∧ kbps = deriveKbps bps
  ∧ (bps = .null ↔ intLookupFails kvs "bit_rate")
  ∧ (bps = .null → kbps = .null)
  ∧ (∀ n : Int, bps = .int n → kbps = .float ((n : Rat) / 1000))
  ∧ (bps = .null ∨ ∃ n : Int, bps = .int n)

/-- Auxiliary: the common shape of the bit-rate extraction. -/
theorem kbpsDerived_of_get (kvs : JObj) :
    kbpsDerived kvs (ParsedJson.get_as_int kvs "bit_rate" .null)
      (deriveKbps (ParsedJson.get_as_int kvs "bit_rate" .null)) := by
  refine ⟨rfl, rfl, get_as_int_eq_null_iff kvs "bit_rate", ?_, ?_,
    get_as_int_null_or_int kvs "bit_rate"⟩
  · intro h
    rw [h]
    rfl
  · intro n h
    rw [h]
    rfl

/-- C5: for `FFformat`, `FFaudioStream` and `FFvideoStream` alike, if
`"bit_rate"` is missing or not int-convertible then `bit_rate_bps` is `None`
(absent, not zero) and `bit_rate_kbps` is also `None`; otherwise
`bit_rate_bps` is the converted int and `bit_rate_kbps` equals it divided by
1000.0 — the kbps attribute is always derived from the bps attribute and is
never present when bps is absent. -/
theorem C5_bit_rate_kbps_derivation (kvs : JObj) :
    (∀ f, FFformat.init (.obj kvs) = .ok f →
      kbpsDerived kvs f.bit_rate_bps f.bit_rate_kbps)
    ∧ (∀ b fl, FFaudioStream.init (.obj kvs) = .ok (.audio b fl) →
      kbpsDerived kvs fl.bit_rate_bps fl.bit_rate_kbps)
    ∧ (∀ b fl, FFvideoStream.init (.obj kvs) = .ok (.video b fl) →
      kbpsDerived kvs fl.bit_rate_bps fl.bit_rate_kbps) := by
  refine ⟨?_, ?_, ?_⟩
  · intro f hf
    unfold FFformat.init at hf
    rw [Except.ok.injEq] at hf
    subst hf
    exact kbpsDerived_of_get kvs
  · intro b fl hf
    simp only [FFaudioStream.init] at hf
    split at hf
    · rw [Except.ok.injEq, FFstreamObj.audio.injEq] at hf
      rw [← hf.2]
      exact kbpsDerived_of_get kvs
    · exact absurd hf (by simp)
  · intro b fl hf
    simp only [FFvideoStream.init] at hf
    split at hf
    · rw [Except.ok.injEq, FFstreamObj.video.injEq] at hf
      rw [← hf.2]
      exact kbpsDerived_of_get kvs
    · exact absurd hf (by simp)

/-- C5 witness: a format subtree with `"bit_rate": "64000"` yields
`bit_rate_kbps == 64.0`; an audio subtree without `"bit_rate"` yields `None`
for both attributes. -/
theorem C5_witness :
    (∀ f, FFformat.init (.obj [("bit_rate", .str "64000")]) = .ok f →
      f.bit_rate_kbps = .float 64)
    ∧ (∀ b fl, FFaudioStream.init (.obj [("codec_type", .str "audio")])
        = .ok (.audio b fl) →
      fl.bit_rate_bps = .null ∧ fl.bit_rate_kbps = .null) := by
  constructor
  · intro f hf
    have h := (C5_bit_rate_kbps_derivation [("bit_rate", .str "64000")]).1 f hf
    have hbps : f.bit_rate_bps = .int 64000 := by
      rw [h.1]
      with_unfolding_all rfl
    have hk := h.2.2.2.2.1 64000 hbps
    rw [hk]
    have : ((64000 : Int) : Rat) / 1000 = 64 := by norm_num
    rw [this]
  · intro b fl hf
    have h := (C5_bit_rate_kbps_derivation [("codec_type", .str "audio")]).2.1 b fl hf
    have hbps : fl.bit_rate_bps = .null := by
      rw [h.1]
      with_unfolding_all rfl
    exact ⟨hbps, h.2.2.2.1 hbps⟩

/-- Auxiliary (shared by the dispatcher and kind-validation results): each
specific stream-variant constructor succeeds on a matching `codec_type` and
fails fast with `FFprobeStreamSubclassError` on a mismatched one. -/
theorem variant_kind_validation (kvs : JObj) :
    ((jeqStr (ParsedJson.get kvs "codec_type" .null) "attachment" = true →
        (FFattachmentStream.init (.obj kvs)).isOk = true)
      ∧ (jeqStr (ParsedJson.get kvs "codec_type" .null) "attachment" = false →
        FFattachmentStream.init (.obj kvs) = .error (.ffStreamSubclass
          "FFattachmentStream" (ParsedJson.get kvs "codec_type" .null) "attachment")))
    ∧ ((jeqStr (ParsedJson.get kvs "codec_type" .null) "audio" = true →
        (FFaudioStream.init (.obj kvs)).isOk = true)
      ∧ (jeqStr (ParsedJson.get kvs "codec_type" .null) "audio" = false →
        FFaudioStream.init (.obj kvs) = .error (.ffStreamSubclass
          "FFaudioStream" (ParsedJson.get kvs "codec_type" .null) "audio")))
    ∧ ((jeqStr (ParsedJson.get kvs "codec_type" .null) "subtitle" = true →
        (FFsubtitleStream.init (.obj kvs)).isOk = true)
      ∧ (jeqStr (ParsedJson.get kvs "codec_type" .null) "subtitle" = false →
        FFsubtitleStream.init (.obj kvs) = .error (.ffStreamSubclass
          "FFsubtitleStream" (ParsedJson.get kvs "codec_type" .null) "subtitle")))
    ∧ ((jeqStr (ParsedJson.get kvs "codec_type" .null) "video" = true →
        (FFvideoStream.init (.obj kvs)).isOk = true)
      ∧ (jeqStr (ParsedJson.get kvs "codec_type" .null) "video" = false →
        FFvideoStream.init (.obj kvs) = .error (.ffStreamSubclass
          "FFvideoStream" (ParsedJson.get kvs "codec_type" .null) "video"))) := by
  refine ⟨⟨?_, ?_⟩, ⟨?_, ?_⟩, ⟨?_, ?_⟩, ⟨?_, ?_⟩⟩ <;> intro h
  · simp [FFattachmentStream.init, FFstreamBase.ofObj, h, Except.isOk, Except.toBool]
  · simp [FFattachmentStream.init, FFstreamBase.ofObj, h]
  · simp [FFaudioStream.init, FFstreamBase.ofObj, h, Except.isOk, Except.toBool]
  · simp [FFaudioStream.init, FFstreamBase.ofObj, h]
  · simp [FFsubtitleStream.init, FFstreamBase.ofObj, h, Except.isOk, Except.toBool]
  · simp [FFsubtitleStream.init, FFstreamBase.ofObj, h]
  · simp [FFvideoStream.init, FFstreamBase.ofObj, h, Except.isOk, Except.toBool]
  · simp [FFvideoStream.init, FFstreamBase.ofObj, h]

/-- C7: constructing a specific stream variant from a stream subtree whose
declared `codec_type` does not equal the variant's kind raises
`FFprobeStreamSubclassError` (carrying the class name, the actual codec_type
and the expected kind); with a matching `codec_type` the construction
succeeds. -/
theorem C7_variant_kind_validation (kvs : JObj) :
    ((jeqStr (ParsedJson.get kvs "codec_type" .null) "attachment" = true →
        (FFattachmentStream.init (.obj kvs)).isOk = true)
      ∧ (jeqStr (ParsedJson.get kvs "codec_type" .null) "attachment" = false →
        FFattachmentStream.init (.obj kvs) = .error (.ffStreamSubclass
          "FFattachmentStream" (ParsedJson.get kvs "codec_type" .null) "attachment")))
    ∧ ((jeqStr (ParsedJson.get kvs "codec_type" .null) "audio" = true →
        (FFaudioStream.init (.obj kvs)).isOk = true)
      ∧ (jeqStr (ParsedJson.get kvs "codec_type" .null) "audio" = false →
        FFaudioStream.init (.obj kvs) = .error (.ffStreamSubclass
          "FFaudioStream" (ParsedJson.get kvs "codec_type" .null) "audio")))
    ∧ ((jeqStr (ParsedJson.get kvs "codec_type" .null) "subtitle" = true →
        (FFsubtitleStream.init (.obj kvs)).isOk = true)
      ∧ (jeqStr (ParsedJson.get kvs "codec_type" .null) "subtitle" = false →
        FFsubtitleStream.init (.obj kvs) = .error (.ffStreamSubclass
          "FFsubtitleStream" (ParsedJson.get kvs "codec_type" .null) "subtitle")))
    ∧ ((jeqStr (ParsedJson.get kvs "codec_type" .null) "video" = true →
        (FFvideoStream.init (.obj kvs)).isOk = true)
      ∧ (jeqStr (ParsedJson.get kvs "codec_type" .null) "video" = false →
        FFvideoStream.init (.obj kvs) = .error (.ffStreamSubclass
          "FFvideoStream" (ParsedJson.get kvs "codec_type" .null) "video"))) :=
  variant_kind_validation kvs

/-- C7 witness: on the subtree `{"codec_type": "video"}` the video-stream
constructor succeeds and the audio-stream constructor fails fast with
`FFprobeStreamSubclassError("FFaudioStream", "video", "audio")`. -/
theorem C7_witness :
    (FFvideoStream.init (.obj [("codec_type", .str "video")])).isOk = true
    ∧ FFaudioStream.init (.obj [("codec_type", .str "video")])
      = .error (.ffStreamSubclass "FFaudioStream" (.str "video") "audio") := by
  have h := C7_variant_kind_validation [("codec_type", .str "video")]
  exact ⟨h.2.2.2.1 rfl, h.2.1.2 rfl⟩

/-- C6 counterexample: the claim "for every subtree with a missing or
unrecognized codec_type, the dispatcher constructs a plain FFstream without
raising any error" fails for a container-valued `codec_type`: on the subtree
`{"codec_type": []}` the codec_type is unrecognized, yet the dispatcher's
dictionary lookup `_KNOWN_FFSTREAM_SUBCLASSES.get(codec_type)` raises
`TypeError` (a Python `list` is unhashable). -/
theorem C6_counterexample :
    construct_ffstream_subclass (.obj [("codec_type", .arr [])])
      = .error .typeError := rfl

/-- Whether a `codec_type` value is a non-container value that does not name a
known stream kind (including "missing": `None`, which the dispatcher treats
the same way). -/
def ctUnknownScalar : JValue → Bool
  | .null => true
  | .bool _ => true
  | .int _ => true
  | .float _ => true
  | .str s => (kindOfString s).isNone
  | .arr _ => false
  | .obj _ => false

/-- C6 (amended): for every stream subtree whose `codec_type` names a known
kind, the dispatcher constructs exactly the corresponding specific variant —
its result (and hence every derived field) is equal to the result of calling
that variant's constructor directly on the same subtree, and the construction
succeeds; for every subtree whose `codec_type` is missing (or `null`), or is
a non-container value naming no known kind, the dispatcher constructs a plain
`FFstream` without raising any error.  (A container-valued `codec_type`
instead raises `TypeError`; see the counterexample.) -/
theorem C6_dispatch_known_kinds_and_scalar_fallback (kvs : JObj) :
    (ParsedJson.get kvs "codec_type" .null = .str "attachment" →
      construct_ffstream_subclass (.obj kvs) = FFattachmentStream.init (.obj kvs)
      ∧ (construct_ffstream_subclass (.obj kvs)).isOk = true)
    ∧ (ParsedJson.get kvs "codec_type" .null = .str "audio" →
      construct_ffstream_subclass (.obj kvs) = FFaudioStream.init (.obj kvs)
      ∧ (construct_ffstream_subclass (.obj kvs)).isOk = true)
    ∧ (ParsedJson.get kvs "codec_type" .null = .str "subtitle" →
      construct_ffstream_subclass (.obj kvs) = FFsubtitleStream.init (.obj kvs)
      ∧ (construct_ffstream_subclass (.obj kvs)).isOk = true)
    ∧ (ParsedJson.get kvs "codec_type" .null = .str "video" →
      construct_ffstream_subclass (.obj kvs) = FFvideoStream.init (.obj kvs)
      ∧ (construct_ffstream_subclass (.obj kvs)).isOk = true)
    ∧ (ctUnknownScalar (ParsedJson.get kvs "codec_type" .null) = true →
      construct_ffstream_subclass (.obj kvs)
        = .ok (.generic (FFstreamBase.ofObj kvs))) := by
  refine ⟨?_, ?_, ?_, ?_, ?_⟩ <;> intro h
  · have hd : construct_ffstream_subclass (.obj kvs)
        = FFattachmentStream.init (.obj kvs) := by
      simp [construct_ffstream_subclass, h, knownSubclassLookup, kindOfString]
    refine ⟨hd, ?_⟩
    rw [hd]
    exact (variant_kind_validation kvs).1.1 (by simp [jeqStr, h])
  · have hd : construct_ffstream_subclass (.obj kvs)
        = FFaudioStream.init (.obj kvs) := by
      simp [construct_ffstream_subclass, h, knownSubclassLookup, kindOfString]
    refine ⟨hd, ?_⟩
    rw [hd]
    exact (variant_kind_validation kvs).2.1.1 (by simp [jeqStr, h])
  · have hd : construct_ffstream_subclass (.obj kvs)
        = FFsubtitleStream.init (.obj kvs) := by
      simp [construct_ffstream_subclass, h, knownSubclassLookup, kindOfString]
    refine ⟨hd, ?_⟩
    rw [hd]
    exact (variant_kind_validation kvs).2.2.1.1 (by simp [jeqStr, h])
  · have hd : construct_ffstream_subclass (.obj kvs)
        = FFvideoStream.init (.obj kvs) := by
      simp [construct_ffstream_subclass, h, knownSubclassLookup, kindOfString]
    refine ⟨hd, ?_⟩
    rw [hd]
    exact (variant_kind_validation kvs).2.2.2.1 (by simp [jeqStr, h])
  · rcases hct : ParsedJson.get kvs "codec_type" .null with _ | b | n | q | s | xs | o <;>
      rw [hct] at h <;>
      simp only [ctUnknownScalar] at h
    · simp [construct_ffstream_subclass, hct, FFstream.init]
    · simp [construct_ffstream_subclass, hct, knownSubclassLookup, FFstream.init]
    · simp [construct_ffstream_subclass, hct, knownSubclassLookup, FFstream.init]
    · simp [construct_ffstream_subclass, hct, knownSubclassLookup, FFstream.init]
    · rw [Option.isNone_iff_eq_none] at h
      simp [construct_ffstream_subclass, hct, knownSubclassLookup, h, FFstream.init]
    · exact absurd h (by simp)
    · exact absurd h (by simp)

/-- C6 witness: on `{"codec_type": "audio"}` the dispatcher result equals the
direct `FFaudioStream` construction, and on the unrecognized scalar kind
`{"codec_type": "data"}` the dispatcher yields a plain generic `FFstream`. -/
theorem C6_witness :
    construct_ffstream_subclass (.obj [("codec_type", .str "audio")])
      = FFaudioStream.init (.obj [("codec_type", .str "audio")])
    ∧ construct_ffstream_subclass (.obj [("codec_type", .str "data")])
      = .ok (.generic (FFstreamBase.ofObj [("codec_type", .str "data")])) :=
  ⟨((C6_dispatch_known_kinds_and_scalar_fallback
        [("codec_type", .str "audio")]).2.1 rfl).1,
    (C6_dispatch_known_kinds_and_scalar_fallback
        [("codec_type", .str "data")]).2.2.2.2 rfl⟩

/-- The error message carried by the `FFprobeInvalidArgumentError` that the
timeout validation raises for a given (non-`None`, non-positive-number)
timeout argument. -/
def timeoutErrMsg (t : TimeoutVal) : String :=
  if timeoutIsNumeric t then "Supplied timeout is non-None and non-positive"
  else "Supplied timeout is non-None and non-numeric"

/-- Auxiliary: timeout validation fails with `FFprobeInvalidArgumentError`
exactly on the non-`None` arguments that are not positive numbers. -/
theorem validateTimeout_cases (t : TimeoutVal) :
    (t = .pynone ∨ timeoutIsPositiveNumber t = true → validateTimeout t = .ok ())
    ∧ (t ≠ .pynone → timeoutIsPositiveNumber t = false →
      validateTimeout t = .error (.ffInvalidArgument "communicate_timeout"
        (timeoutErrMsg t))) := by
  constructor
  · rintro (rfl | h)
    · rfl
    · cases t with
      | pynone => rfl
      | pyint n =>
        simp only [timeoutIsPositiveNumber, timeoutIsNumeric, timeoutAsRat,
          Bool.true_and, decide_eq_true_eq] at h
        simp [validateTimeout, timeoutIsNumeric, timeoutAsRat, not_le.2 h]
      | pybool b =>
        cases b with
        | false => simp [timeoutIsPositiveNumber, timeoutAsRat] at h
        | true => simp [validateTimeout, timeoutIsNumeric, timeoutAsRat]
      | pyfloat q =>
        simp only [timeoutIsPositiveNumber, timeoutIsNumeric, timeoutAsRat,
          Bool.true_and, decide_eq_true_eq] at h
        simp [validateTimeout, timeoutIsNumeric, timeoutAsRat, not_le.2 h]
      | pystr s => simp [timeoutIsPositiveNumber, timeoutIsNumeric] at h
  · intro hne h
    cases t with
    | pynone => exact absurd rfl hne
    | pyint n =>
      simp only [timeoutIsPositiveNumber, timeoutIsNumeric, timeoutAsRat,
        Bool.true_and, decide_eq_false_iff_not, not_lt] at h
      simp [validateTimeout, timeoutIsNumeric, timeoutErrMsg, timeoutAsRat, h]
    | pybool b =>
      cases b with
      | false => simp [validateTimeout, timeoutIsNumeric, timeoutErrMsg, timeoutAsRat]
      | true => simp [timeoutIsPositiveNumber, timeoutIsNumeric, timeoutAsRat] at h
    | pyfloat q =>
      simp only [timeoutIsPositiveNumber, timeoutIsNumeric, timeoutAsRat,
        Bool.true_and, decide_eq_false_iff_not, not_lt] at h
      simp [validateTimeout, timeoutIsNumeric, timeoutErrMsg, timeoutAsRat, h]
    | pystr s =>
      simp [validateTimeout, timeoutIsNumeric, timeoutErrMsg]

/-- C8 counterexample: the claim "for every communicate_timeout argument that
is not a positive number, probe raises FFprobeInvalidArgumentError before any
subprocess is spawned" fails at `communicate_timeout=None`: `None` is not a
positive number, yet the validation block is guarded by
`if communicate_timeout is not None` and `probe` proceeds to spawn the
subprocess and succeed. -/
theorem C8_counterexample :
    timeoutIsPositiveNumber .pynone = false
    ∧ (probeRun (fun _ => true) (fun _ => ⟨"{}", "", 0⟩)
        (fun s => if s = "{}" then some (.obj []) else none)
        ⟨"media.mp4", .pynone, none, true⟩).isOk = true := by
  refine ⟨rfl, ?_⟩
  with_unfolding_all rfl

/-- C8 (amended): for every `communicate_timeout` argument that is non-`None`
and not a positive number (non-numeric, or numeric but `<= 0`), and any
executable override that passes its own (earlier) existence check, `probe`
raises `FFprobeInvalidArgumentError` before any subprocess is spawned — the
result is this error for every possible subprocess and JSON-decode behavior. -/
theorem C8_invalid_timeout_raises (isfile : String → Bool)
    (exec : List String → SubprocessOutcome) (loads : String → Option JValue)
    (a : ProbeArgs)
    (hov : a.ffprobe_cmd_override = none
      ∨ ∃ ov, a.ffprobe_cmd_override = some ov ∧ isfile ov = true)
    (hne : a.communicate_timeout ≠ .pynone)
    (hnp : timeoutIsPositiveNumber a.communicate_timeout = false) :
    probeRun isfile exec loads a = .error (.ffInvalidArgument
      "communicate_timeout" (timeoutErrMsg a.communicate_timeout)) := by
  have hval := (validateTimeout_cases a.communicate_timeout).2 hne hnp
  have hpre : probePreSpawn isfile a = .error (.ffInvalidArgument
      "communicate_timeout" (timeoutErrMsg a.communicate_timeout)) := by
    unfold probePreSpawn
    rcases hov with h | ⟨ov, h, hf⟩
    · simp [checkOverride, h, hval]
    · simp [checkOverride, h, hf, hval]
  unfold probeRun
  rw [hpre]

/-- C8 witness: with the non-positive timeout `0` (an int), `probe` fails with
`FFprobeInvalidArgumentError` on the timeout argument for a concrete
filesystem, subprocess and JSON oracle. -/
theorem C8_witness :
    probeRun (fun _ => true) (fun _ => ⟨"{}", "", 0⟩)
      (fun s => if s = "{}" then some (.obj []) else none)
      ⟨"media.mp4", .pyint 0, none, true⟩
      = .error (.ffInvalidArgument "communicate_timeout"
          "Supplied timeout is non-None and non-positive") :=
  C8_invalid_timeout_raises (fun _ => true) (fun _ => ⟨"{}", "", 0⟩)
    (fun s => if s = "{}" then some (.obj []) else none)
    ⟨"media.mp4", .pyint 0, none, true⟩ (Or.inl rfl) (by decide) rfl

/-- Auxiliary: the string named by a known stream kind. -/
def kindStr : StreamKind → String
  | .attachment => "attachment"
  | .audio => "audio"
  | .subtitle => "subtitle"
  | .video => "video"

/-- Auxiliary: a successful kind lookup pins down the kind string. -/
theorem kindOfString_eq_some (s : String) (k : StreamKind)
    (h : kindOfString s = some k) : s = kindStr k := by
  unfold kindOfString at h
  split_ifs at h with h1 h2 h3 h4
  · rw [Option.some.injEq] at h; subst h; simpa [kindStr] using h1
  · rw [Option.some.injEq] at h; subst h; simpa [kindStr] using h2
  · rw [Option.some.injEq] at h; subst h; simpa [kindStr] using h3
  · rw [Option.some.injEq] at h; subst h; simpa [kindStr] using h4

/-- Auxiliary: the dispatcher only ever raises `TypeError` (unhashable
`codec_type`) or `AttributeError` (non-dict subtree). -/
theorem construct_err_shape (pj : JValue) (e : PyErr)
    (h : construct_ffstream_subclass pj = .error e) :
    e = .typeError ∨ e = .attributeError := by
  cases pj with
  | obj kvs =>
    simp only [construct_ffstream_subclass] at h
    rcases hct : ParsedJson.get kvs "codec_type" .null with _ | b | n | q | s | xs | o <;>
      rw [hct] at h
    · simp [FFstream.init] at h
    · have h' : FFstream.init (JValue.obj kvs) = Except.error e := h
      simp [FFstream.init] at h'
    · have h' : FFstream.init (JValue.obj kvs) = Except.error e := h
      simp [FFstream.init] at h'
    · have h' : FFstream.init (JValue.obj kvs) = Except.error e := h
      simp [FFstream.init] at h'
    · rcases hk : kindOfString s with _ | k
      · have h' : (match knownSubclassLookup (JValue.str s) with
            | Except.error e => Except.error e
            | Except.ok none => FFstream.init (JValue.obj kvs)
            | Except.ok (some StreamKind.attachment) =>
                FFattachmentStream.init (JValue.obj kvs)
            | Except.ok (some StreamKind.audio) => FFaudioStream.init (JValue.obj kvs)
            | Except.ok (some StreamKind.subtitle) =>
                FFsubtitleStream.init (JValue.obj kvs)
            | Except.ok (some StreamKind.video) => FFvideoStream.init (JValue.obj kvs))
            = Except.error e := h
        simp only [knownSubclassLookup, hk] at h'
        simp [FFstream.init] at h'
      · have hs := kindOfString_eq_some s k hk
        subst hs
        have hmatch : jeqStr (ParsedJson.get kvs "codec_type" .null)
            (kindStr k) = true := by
          rw [hct]
          simp [jeqStr]
        have h' : (match (Except.ok (kindOfString (kindStr k)) :
              Except PyErr (Option StreamKind)) with
            | Except.error e => Except.error e
            | Except.ok none => FFstream.init (JValue.obj kvs)
            | Except.ok (some StreamKind.attachment) =>
                FFattachmentStream.init (JValue.obj kvs)
            | Except.ok (some StreamKind.audio) => FFaudioStream.init (JValue.obj kvs)
            | Except.ok (some StreamKind.subtitle) =>
                FFsubtitleStream.init (JValue.obj kvs)
            | Except.ok (some StreamKind.video) => FFvideoStream.init (JValue.obj kvs))
            = Except.error e := h
        rw [hk] at h'
        cases k with
        | attachment =>
          have hok := (variant_kind_validation kvs).1.1 hmatch
          have hinit : FFattachmentStream.init (JValue.obj kvs) = Except.error e := h'
          rw [hinit] at hok
          simp [Except.isOk, Except.toBool] at hok
        | audio =>
          have hok := (variant_kind_validation kvs).2.1.1 hmatch
          have hinit : FFaudioStream.init (JValue.obj kvs) = Except.error e := h'
          rw [hinit] at hok
          simp [Except.isOk, Except.toBool] at hok
        | subtitle =>
          have hok := (variant_kind_validation kvs).2.2.1.1 hmatch
          have hinit : FFsubtitleStream.init (JValue.obj kvs) = Except.error e := h'
          rw [hinit] at hok
          simp [Except.isOk, Except.toBool] at hok
        | video =>
          have hok := (variant_kind_validation kvs).2.2.2.1 hmatch
          have hinit : FFvideoStream.init (JValue.obj kvs) = Except.error e := h'
          rw [hinit] at hok
          simp [Except.isOk, Except.toBool] at hok
    · have h' : (Except.error PyErr.typeError : Except PyErr FFstreamObj)
          = Except.error e := h
      rw [Except.error.injEq] at h'
      exact Or.inl h'.symm
    · have h' : (Except.error PyErr.typeError : Except PyErr FFstreamObj)
          = Except.error e := h
      rw [Except.error.injEq] at h'
      exact Or.inl h'.symm
  | null => simp [construct_ffstream_subclass] at h; exact Or.inr h.symm
  | bool b => simp [construct_ffstream_subclass] at h; exact Or.inr h.symm
  | int n => simp [construct_ffstream_subclass] at h; exact Or.inr h.symm
  | float q => simp [construct_ffstream_subclass] at h; exact Or.inr h.symm
  | str s => simp [construct_ffstream_subclass] at h; exact Or.inr h.symm
  | arr xs => simp [construct_ffstream_subclass] at h; exact Or.inr h.symm

/-- Auxiliary: `FFformat` construction only ever raises
`FFprobeInvalidArgumentError`. -/
theorem FFformat_err_shape (pj : JValue) (e : PyErr)
    (h : FFformat.init pj = .error e) :
    ∃ a m, e = .ffInvalidArgument a m := by
  cases pj <;> simp [FFformat.init] at h <;> exact ⟨_, _, h.symm⟩

/-- Auxiliary: `FFchapter` construction only ever raises
`FFprobeInvalidArgumentError`. -/
theorem FFchapter_err_shape (pj : JValue) (e : PyErr)
    (h : FFchapter.init pj = .error e) :
    ∃ a m, e = .ffInvalidArgument a m := by
  cases pj <;> simp [FFchapter.init] at h <;> exact ⟨_, _, h.symm⟩

/-- Auxiliary: Python iteration failure is a `TypeError`. -/
theorem iterAsPyList_err_shape (v : JValue) (e : PyErr)
    (h : iterAsPyList v = .error e) : e = .typeError := by
  cases v <;> simp [iterAsPyList] at h <;> exact h.symm

/-- Auxiliary: error shape of the stream list comprehension. -/
theorem constructStreams_err_shape (xs : List JValue) (e : PyErr)
    (h : constructStreams xs = .error e) :
    e = .typeError ∨ e = .attributeError := by
  induction xs with
  | nil => simp [constructStreams] at h
  | cons x rest ih =>
    simp only [constructStreams] at h
    rcases hx : construct_ffstream_subclass x with e1 | s <;> rw [hx] at h
    · have h' : (Except.error e1 : Except PyErr (List FFstreamObj))
          = Except.error e := h
      rw [Except.error.injEq] at h'
      subst h'
      exact construct_err_shape x e1 hx
    · rcases hr : constructStreams rest with e2 | ss <;> rw [hr] at h
      · have h' : (Except.error e2 : Except PyErr (List FFstreamObj))
            = Except.error e := h
        rw [Except.error.injEq] at h'
        subst h'
        exact ih hr
      · have h' : (Except.ok (s :: ss) : Except PyErr (List FFstreamObj))
            = Except.error e := h
        simp at h'

/-- Auxiliary: error shape of the chapter list comprehension. -/
theorem constructChapters_err_shape (xs : List JValue) (e : PyErr)
    (h : constructChapters xs = .error e) :
    ∃ a m, e = .ffInvalidArgument a m := by
  induction xs with
  | nil => simp [constructChapters] at h
  | cons x rest ih =>
    simp only [constructChapters] at h
    rcases hx : FFchapter.init x with e1 | c <;> rw [hx] at h
    · have h' : (Except.error e1 : Except PyErr (List FFchapterObj))
          = Except.error e := h
      rw [Except.error.injEq] at h'
      subst h'
      exact FFchapter_err_shape x e1 hx
    · rcases hr : constructChapters rest with e2 | cs <;> rw [hr] at h
      · have h' : (Except.error e2 : Except PyErr (List FFchapterObj))
            = Except.error e := h
        rw [Except.error.injEq] at h'
        subst h'
        exact ih hr
      · have h' : (Except.ok (c :: cs) : Except PyErr (List FFchapterObj))
            = Except.error e := h
        simp at h'

/-- Auxiliary: `FFprobe` construction only ever raises
`FFprobeInvalidArgumentError`, `TypeError` or `AttributeError` — in
particular never `FFprobeMediaFileError` or `FFprobeSubprocessError`. -/
theorem FFprobe_init_err_shape (cmd : List String) (pj : JValue) (e : PyErr)
    (h : FFprobe.init cmd pj = .error e) :
    (∃ a m, e = .ffInvalidArgument a m) ∨ e = .typeError ∨ e = .attributeError := by
  cases pj with
  | obj kvs =>
    simp only [FFprobe.init] at h
    split at h
    · rw [Except.error.injEq] at h
      exact Or.inl ⟨_, _, h.symm⟩
    · split at h
      · rename_i e1 heq
        rw [Except.error.injEq] at h
        subst h
        exact Or.inl (FFformat_err_shape _ _ heq)
      · split at h
        · rename_i e2 heq2
          rw [Except.error.injEq] at h
          subst h
          exact Or.inr (Or.inl (iterAsPyList_err_shape _ _ heq2))
        · split at h
          · rename_i e3 heq3
            rw [Except.error.injEq] at h
            subst h
            exact Or.inr (constructStreams_err_shape _ _ heq3)
          · split at h
            · rename_i e4 heq4
              rw [Except.error.injEq] at h
              subst h
              exact Or.inr (Or.inl (iterAsPyList_err_shape _ _ heq4))
            · split at h
              · rename_i e5 heq5
                rw [Except.error.injEq] at h
                subst h
                exact Or.inl (constructChapters_err_shape _ _ heq5)
              · simp at h
  | null =>
    simp [FFprobe.init] at h
    split at h <;> (rw [Except.error.injEq] at h; exact Or.inl ⟨_, _, h.symm⟩)
  | bool b =>
    simp [FFprobe.init] at h
    split at h <;> (rw [Except.error.injEq] at h; exact Or.inl ⟨_, _, h.symm⟩)
  | int n =>
    simp [FFprobe.init] at h
    split at h <;> (rw [Except.error.injEq] at h; exact Or.inl ⟨_, _, h.symm⟩)
  | float q =>
    simp [FFprobe.init] at h
    split at h <;> (rw [Except.error.injEq] at h; exact Or.inl ⟨_, _, h.symm⟩)
  | str s =>
    simp [FFprobe.init] at h
    split at h <;> (rw [Except.error.injEq] at h; exact Or.inl ⟨_, _, h.symm⟩)
  | arr xs =>
    simp [FFprobe.init] at h
    split at h <;> (rw [Except.error.injEq] at h; exact Or.inl ⟨_, _, h.symm⟩)

/-- Auxiliary: the post-completion phase never raises
`FFprobeMediaFileError`. -/
theorem probePost_not_mediafile (loads : String → Option JValue)
    (outs errs : String) (status : Int) (cmd : List String) (p : String) :
    probePost loads outs errs status cmd ≠ .error (.ffMediaFile p) := by
  intro h
  unfold probePost at h
  split at h
  · simp at h
  · split at h
    · simp at h
    · rcases FFprobe_init_err_shape _ _ _ h with ⟨a, m, hh⟩ | hh | hh <;> simp at hh

/-- Auxiliary: the pre-spawn phase with no executable override and a timeout
that passes validation reduces to the local-media-file existence check. -/
theorem probePreSpawn_none_override (isfile : String → Bool) (path : String)
    (tmo : TimeoutVal) (verify : Bool) (htmo : validateTimeout tmo = .ok ()) :
    probePreSpawn isfile ⟨path, tmo, none, verify⟩
      = if verify && !uriSchemeMatch path && !isfile path
        then .error (.ffMediaFile path)
        else .ok (SPLIT_COMMAND_LINE ++ [path]) := by
  simp only [probePreSpawn, checkOverride, htmo]

/-- C9: with no executable override and a timeout that passes validation,
`probe` raises `FFprobeMediaFileError` carrying exactly the supplied path —
for every possible subprocess and JSON-decode behavior, i.e. before any
subprocess is spawned — if and only if the local-file check is enabled, the
path does not match the URI-scheme pattern `^[a-z][a-z0-9-]*://`, and the path
is not an existing local file; and when the path matches the URI-scheme
pattern or the check is disabled, no local-existence check is performed (the
pre-spawn phase is independent of the filesystem oracle). -/
theorem C9_mediafile_check_iff (isfile isfile' : String → Bool)
    (exec : List String → SubprocessOutcome) (loads : String → Option JValue)
    (path : String) (verify : Bool) (tmo : TimeoutVal)
    (htmo : validateTimeout tmo = .ok ()) :
    (probeRun isfile exec loads ⟨path, tmo, none, verify⟩
        = .error (.ffMediaFile path)
      ↔ verify = true ∧ uriSchemeMatch path = false ∧ isfile path = false)
    ∧ ((uriSchemeMatch path = true ∨ verify = false) →
      probePreSpawn isfile ⟨path, tmo, none, verify⟩
        = probePreSpawn isfile' ⟨path, tmo, none, verify⟩) := by
  have hpre := probePreSpawn_none_override isfile path tmo verify htmo
  constructor
  · constructor
    · intro h
      unfold probeRun at h
      rw [hpre] at h
      by_cases hc : (verify && !uriSchemeMatch path && !isfile path) = true
      · simp only [Bool.and_eq_true, Bool.not_eq_true'] at hc
        exact ⟨hc.1.1, hc.1.2, hc.2⟩
      · rw [if_neg hc] at h
        have h' : probePost loads (exec (SPLIT_COMMAND_LINE ++ [path])).stdout
            (exec (SPLIT_COMMAND_LINE ++ [path])).stderr
            (exec (SPLIT_COMMAND_LINE ++ [path])).exit_status
            (SPLIT_COMMAND_LINE ++ [path]) = .error (.ffMediaFile path) := h
        exact absurd h' (probePost_not_mediafile _ _ _ _ _ _)
    · rintro ⟨hv, hu, hf⟩
      unfold probeRun
      rw [hpre, if_pos (by simp [hv, hu, hf])]
  · intro hcase
    have hpre' := probePreSpawn_none_override isfile' path tmo verify htmo
    rw [hpre, hpre']
    rcases hcase with hu | hv
    · simp [hu]
    · simp [hv]

/-- C9 witness: probing the non-URI path "missing.mp4" on a filesystem where
it does not exist, with the check enabled and the default timeout, fails with
`FFprobeMediaFileError("missing.mp4")`; and for the URI
"http://host/stream" the pre-spawn phase is the same on two filesystems that
disagree everywhere. -/
theorem C9_witness :
    probeRun (fun _ => false) (fun _ => ⟨"{}", "", 0⟩) (fun _ => some (.obj []))
      ⟨"missing.mp4", .pyfloat 10, none, true⟩
      = .error (.ffMediaFile "missing.mp4")
    ∧ probePreSpawn (fun _ => false) ⟨"http://host/stream", .pyfloat 10, none, true⟩
      = probePreSpawn (fun _ => true) ⟨"http://host/stream", .pyfloat 10, none, true⟩ := by
  have htmo : validateTimeout (.pyfloat 10) = .ok () := by with_unfolding_all rfl
  constructor
  · exact (C9_mediafile_check_iff (fun _ => false) (fun _ => true)
      (fun _ => ⟨"{}", "", 0⟩) (fun _ => some (.obj [])) "missing.mp4" true
      (.pyfloat 10) htmo).1.mpr ⟨rfl, by decide, rfl⟩
  · exact (C9_mediafile_check_iff (fun _ => false) (fun _ => true)
      (fun _ => ⟨"{}", "", 0⟩) (fun _ => some (.obj [])) "http://host/stream" true
      (.pyfloat 10) htmo).2 (Or.inl (by decide))

/-- C10: after the subprocess completes, `probe` decodes stdout as JSON
before examining the exit status: whenever the captured stdout is not valid
JSON it raises `FFprobeJsonParseError`, even when the exit status is non-zero;
and `FFprobeSubprocessError` — carrying the executed command line, the exit
status, and the captured stderr — is raised exactly when stdout decoded as
valid JSON and the exit status is non-zero. -/
theorem C10_json_decoded_before_exit_status (loads : String → Option JValue)
    (outs errs : String) (status : Int) (cmd : List String) :
    (loads outs = none → probePost loads outs errs status cmd = .error .ffJsonParse)
    ∧ (∀ j, loads outs = some j → status ≠ 0 →
      probePost loads outs errs status cmd = .error (.ffSubprocess cmd status errs))
    ∧ (∀ c s er, probePost loads outs errs status cmd
        = .error (.ffSubprocess c s er) →
      (∃ j, loads outs = some j) ∧ status ≠ 0 ∧ c = cmd ∧ s = status ∧ er = errs) := by
  refine ⟨?_, ?_, ?_⟩
  · intro h
    simp [probePost, h]
  · intro j hj hs
    simp [probePost, hj, hs]
  · intro c s er h
    unfold probePost at h
    split at h
    · simp at h
    · rename_i j heq
      split at h
      · rename_i hs
        rw [Except.error.injEq, PyErr.ffSubprocess.injEq] at h
        exact ⟨⟨j, heq⟩, hs, h.1.symm, h.2.1.symm, h.2.2.symm⟩
      · rcases FFprobe_init_err_shape _ _ _ h with ⟨a, m, hh⟩ | hh | hh <;> simp at hh

/-- C10 witness: with exit status 1, undecodable stdout raises
`FFprobeJsonParseError` (not `FFprobeSubprocessError`), while decodable stdout
raises `FFprobeSubprocessError` carrying the command line, the exit status 1
and the captured stderr. -/
theorem C10_witness :
    probePost (fun _ => none) "not json" "E" 1 ["ffprobe", "f.mp4"]
      = .error .ffJsonParse
    ∧ probePost (fun _ => some (.obj [])) "{}" "E" 1 ["ffprobe", "f.mp4"]
      = .error (.ffSubprocess ["ffprobe", "f.mp4"] 1 "E") :=
  ⟨(C10_json_decoded_before_exit_status (fun _ => none) "not json" "E" 1
      ["ffprobe", "f.mp4"]).1 rfl,
    (C10_json_decoded_before_exit_status (fun _ => some (.obj [])) "{}" "E" 1
      ["ffprobe", "f.mp4"]).2.1 (.obj []) rfl (by decide)⟩

/-- Auxiliary: inversion of one step of the stream list comprehension. -/
theorem constructStreams_ok_cons (x : JValue) (rest : List JValue)
    (l : List FFstreamObj) (h : constructStreams (x :: rest) = .ok l) :
    ∃ s ss, construct_ffstream_subclass x = .ok s
      ∧ constructStreams rest = .ok ss ∧ l = s :: ss := by
  simp only [constructStreams] at h
  split at h
  · simp at h
  · rename_i s hs
    split at h
    · simp at h
    · rename_i ss hss
      rw [Except.ok.injEq] at h
      exact ⟨s, ss, hs, hss, h.symm⟩

/-- Auxiliary: the stream list comprehension yields one wrapper per subtree. -/
theorem constructStreams_length : ∀ (xs : List JValue) (l : List FFstreamObj),
    constructStreams xs = .ok l → l.length = xs.length := by
  intro xs
  induction xs with
  | nil =>
    intro l h
    rw [show constructStreams [] = .ok [] from rfl, Except.ok.injEq] at h
    subst h
    rfl
  | cons x rest ih =>
    intro l h
    obtain ⟨s, ss, hs, hss, rfl⟩ := constructStreams_ok_cons x rest l h
    simp [ih ss hss]

/-- Auxiliary: the wrapper at position `i` is the dispatcher's result on the
subtree at position `i`. -/
theorem constructStreams_get : ∀ (xs : List JValue) (l : List FFstreamObj),
    constructStreams xs = .ok l →
    ∀ i (hx : i < xs.length) (hl : i < l.length),
      construct_ffstream_subclass (xs.get ⟨i, hx⟩) = .ok (l.get ⟨i, hl⟩) := by
  intro xs
  induction xs with
  | nil =>
    intro l h i hx hl
    exact absurd hx (by simp)
  | cons x rest ih =>
    intro l h i hx hl
    obtain ⟨s, ss, hs, hss, rfl⟩ := constructStreams_ok_cons x rest l h
    cases i with
    | zero => simpa using hs
    | succ n =>
      simp only [List.get_cons_succ]
      exact ih ss hss n (by simpa using hx) (by simpa using hl)

/-- Auxiliary: inversion of a successful `FFprobe` construction. -/
theorem FFprobe_init_ok_inv (cmd : List String) (kvs : JObj) (r : FFprobeRes)
    (h : FFprobe.init cmd (.obj kvs) = .ok r) :
    ∃ f elems streams celems chapters,
      FFformat.init (ParsedJson.get kvs "format" (.obj [])) = .ok f
      ∧ iterAsPyList (ParsedJson.get kvs "streams" (.arr [])) = .ok elems
      ∧ constructStreams elems = .ok streams
      ∧ iterAsPyList (ParsedJson.get kvs "chapters" (.arr [])) = .ok celems
      ∧ constructChapters celems = .ok chapters
      ∧ r = {
          split_cmdline := cmd
          executed_cmd := cmd.headD ""
          media_file_path := cmd.getLastD ""
          parsed_json := kvs
          format := f
          streams := streams
          chapters := chapters
          attachment := streams.filter FFstreamObj.is_attachment
          audio := streams.filter FFstreamObj.is_audio
          subtitle := streams.filter FFstreamObj.is_subtitle
          video := streams.filter FFstreamObj.is_video } := by
  simp only [FFprobe.init] at h
  split at h
  · simp at h
  · split at h
    · simp at h
    · rename_i f hf
      split at h
      · simp at h
      · rename_i elems hit
        split at h
        · simp at h
        · rename_i streams hst
          split at h
          · simp at h
          · rename_i celems hic
            split at h
            · simp at h
            · rename_i chapters hch
              rw [Except.ok.injEq] at h
              exact ⟨f, elems, streams, celems, chapters, hf, hit, hst, hic, hch, h.symm⟩

/-- Auxiliary: the four stream-kind predicates are mutually exclusive — each
stream satisfies exactly one of them when its kind is known, none otherwise. -/
theorem stream_kind_predicates_exclusive (s : FFstreamObj) :
    List.count true [s.is_attachment, s.is_audio, s.is_subtitle, s.is_video]
      = if s.is_attachment || s.is_audio || s.is_subtitle || s.is_video
        then 1 else 0 := by
  unfold FFstreamObj.is_attachment FFstreamObj.is_audio FFstreamObj.is_subtitle
    FFstreamObj.is_video
  rcases s.base.codec_type with _ | b | n | q | t | xs | o <;>
    simp only [jeqStr] <;>
    try simp [List.count_cons]
  by_cases t1 : t = "attachment" <;> by_cases t2 : t = "audio" <;>
    by_cases t3 : t = "subtitle" <;> by_cases t4 : t = "video" <;>
    simp_all [List.count_cons]

/-- C1: for every parsed probe output whose `"streams"` list has N entries,
the constructed `FFprobe` result has `len(result.streams) == N`, with one
stream wrapper per subtree in original order (`result.streams[i]` is the
dispatcher's result on subtree `i`); the four classification lists are the
filters of `result.streams` by the four kind predicates (derived views over
the same stream list, not independent constructions), so a stream of
`result.streams` belongs to a classification list exactly when its own kind
predicate holds, and each stream satisfies exactly one of the four predicates
when its kind is one of the four known kinds and none otherwise. -/
theorem C1_streams_partition (cmd : List String) (kvs : JObj) (xs : List JValue)
    (r : FFprobeRes)
    (hstreams : ParsedJson.get kvs "streams" (.arr []) = .arr xs)
    (hok : FFprobe.init cmd (.obj kvs) = .ok r) :
    r.streams.length = xs.length
    ∧ (∀ i (hx : i < xs.length), ∃ hl : i < r.streams.length,
        construct_ffstream_subclass (xs.get ⟨i, hx⟩) = .ok (r.streams.get ⟨i, hl⟩))
    ∧ r.attachment = r.streams.filter FFstreamObj.is_attachment
    ∧ r.audio = r.streams.filter FFstreamObj.is_audio
    ∧ r.subtitle = r.streams.filter FFstreamObj.is_subtitle
    ∧ r.video = r.streams.filter FFstreamObj.is_video
    ∧ (∀ s ∈ r.streams,
        (s ∈ r.attachment ↔ s.is_attachment = true)
        ∧ (s ∈ r.audio ↔ s.is_audio = true)
        ∧ (s ∈ r.subtitle ↔ s.is_subtitle = true)
        ∧ (s ∈ r.video ↔ s.is_video = true))
    ∧ (∀ s : FFstreamObj,
        List.count true [s.is_attachment, s.is_audio, s.is_subtitle, s.is_video]
          = if s.is_attachment || s.is_audio || s.is_subtitle || s.is_video
            then 1 else 0) := by
  obtain ⟨f, elems, streams, celems, chapters, hf, hit, hst, hic, hch, rfl⟩ :=
    FFprobe_init_ok_inv cmd kvs r hok
  rw [hstreams] at hit
  have helems : elems = xs := by
    have h' : (Except.ok xs : Except PyErr (List JValue)) = .ok elems := hit
    rw [Except.ok.injEq] at h'
    exact h'.symm
  rw [helems] at hst
  have hlen := constructStreams_length xs streams hst
  refine ⟨hlen, ?_, rfl, rfl, rfl, rfl, ?_, stream_kind_predicates_exclusive⟩
  · intro i hx
    exact ⟨by simpa [hlen] using hx, constructStreams_get xs streams hst i hx _⟩
  · intro s hs
    refine ⟨?_, ?_, ?_, ?_⟩ <;>
      exact ⟨fun hm => (List.mem_filter.mp hm).2, fun hp => List.mem_filter.mpr ⟨hs, hp⟩⟩

/-- The probe output used by the C1 witness: one audio stream and one stream
of unknown kind "data". -/
def c1SampleKvs : JObj :=
  [("streams", .arr [.obj [("codec_type", .str "audio")],
                     .obj [("codec_type", .str "data")]])]

/-- The `FFprobe` result constructed from the C1 witness input. -/
def c1SampleRes : FFprobeRes :=
  (FFprobe.init ["ffprobe", "x.mp4"] (.obj c1SampleKvs)).toOption.getD default

/-- C1 witness: the two-stream sample yields two wrappers, its audio list is
the audio filter of its stream list, the audio stream belongs to the audio
list, and the unknown-kind stream satisfies no kind predicate. -/
theorem C1_witness :
    c1SampleRes.streams.length = 2
    ∧ c1SampleRes.audio = c1SampleRes.streams.filter FFstreamObj.is_audio
    ∧ (∀ s : FFstreamObj,
        List.count true [s.is_attachment, s.is_audio, s.is_subtitle, s.is_video]
          = if s.is_attachment || s.is_audio || s.is_subtitle || s.is_video
            then 1 else 0) := by
  have hok : FFprobe.init ["ffprobe", "x.mp4"] (.obj c1SampleKvs)
      = .ok c1SampleRes := by
    with_unfolding_all rfl
  have h := C1_streams_partition ["ffprobe", "x.mp4"] c1SampleKvs
    [.obj [("codec_type", .str "audio")], .obj [("codec_type", .str "data")]]
    c1SampleRes rfl hok
  exact ⟨h.1, h.2.2.2.1, h.2.2.2.2.2.2.2⟩

/-- One iteration of the unit loop when the magnitude is below the divisor:
render with the current unit ("i"-suffixed in base-2 mode when non-empty). -/
theorem dsLoop_cons_lt (u10 : Bool) (sfx : String) (d num : Rat) (u : String)
    (rest : List String) (h : |num| < d) :
    dsLoop u10 sfx d num (u :: rest)
      = if u ≠ "" ∧ u10 = false then fmtFixed num 1 ++ " " ++ u ++ "i" ++ sfx
        else fmtFixed num 1 ++ " " ++ u ++ sfx := by
  simp only [dsLoop]
  rw [if_pos h]

/-- One iteration of the unit loop when the magnitude is at least the divisor:
divide and advance to the next unit. -/
theorem dsLoop_cons_ge (u10 : Bool) (sfx : String) (d num : Rat) (u : String)
    (rest : List String) (h : d ≤ |num|) :
    dsLoop u10 sfx d num (u :: rest) = dsLoop u10 sfx d (num / d) rest := by
  simp only [dsLoop]
  rw [if_neg (not_lt.mpr h)]

/-- Auxiliary: `k` iterations of the unit loop divide the value by the `k`-th
power of the divisor and advance `k` units, provided the magnitude stays at or
above the divisor throughout. -/
theorem dsLoop_drop (u10 : Bool) (sfx : String) (d : Rat) (hd : 0 < d) :
    ∀ (k : Nat) (L : List String) (num : Rat), k ≤ L.length →
      (∀ j, j < k → d ^ (j + 1) ≤ |num|) →
      dsLoop u10 sfx d num L = dsLoop u10 sfx d (num / d ^ k) (L.drop k) := by
  intro k
  induction k with
  | zero =>
    intro L num _ _
    simp
  | succ k ih =>
    intro L num hk hb
    cases L with
    | nil => simp at hk
    | cons u rest =>
      have h0 : d ≤ |num| := by simpa using hb 0 (Nat.succ_pos k)
      rw [dsLoop_cons_ge u10 sfx d num u rest h0]
      have hb' : ∀ j, j < k → d ^ (j + 1) ≤ |num / d| := by
        intro j hj
        rw [abs_div, abs_of_pos hd, le_div_iff₀ hd]
        calc d ^ (j + 1) * d = d ^ (j + 2) := by ring
          _ ≤ |num| := hb (j + 1) (Nat.succ_lt_succ hj)
      rw [ih rest (num / d) (Nat.le_of_succ_le_succ hk) hb']
      rw [show num / d / d ^ k = num / d ^ (k + 1) by rw [div_div, ← pow_succ']]
      rfl

/-- The unit prefix rendered at loop position `k` ("i"-suffixed in base-2 mode
for non-empty prefixes). -/
def dsUnitStr (k : Nat) (use_base_10 : Bool) : String :=
  let u := dsUnits.getD k ""
  if u ≠ "" ∧ use_base_10 = false then u ++ "i" else u

/-- C3: for every mapping whose value at `key` converts to the float `q`,
`get_datasize_as_human` renders `q` divided by the `k`-th power of the divisor
(1000 in base-10 mode, 1024 in base-2 mode) with the `k`-th unit prefix of
{none, k, M, G, T, P, E, Z}, where `k` is the number of divisions needed to
bring the magnitude below the divisor; base-2 mode appends "i" to every
non-empty prefix; once all eight prefixes are exhausted (magnitude at least
divisor^8) the result is rendered with prefix "Y" (base-10) or "Yi" (base-2)
after exactly eight divisions and no further ones.  Boundary cases: 999 in
base-10 with suffix "B" formats as "999.0 B", 1000 in base-10 crosses into the
"k" prefix, and 1024 in base-2 crosses into the "ki" prefix. -/
theorem C3_datasize_unit_scaling (kvs : JObj) (key suffix : String)
    (dflt : JValue) (use10 : Bool) (v : JValue) (q : Rat)
    (hv : jlookup kvs key = some v) (hq : pyFloat v = .ok q) :
    (∀ k : Nat, k < 8 → (k = 0 ∨ dsDivisor use10 ^ k ≤ |q|) →
      |q| < dsDivisor use10 ^ (k + 1) →
      ParsedJson.get_datasize_as_human kvs key suffix dflt use10
        = .str (fmtFixed (q / dsDivisor use10 ^ k) 1 ++ " "
            ++ dsUnitStr k use10 ++ suffix))
    ∧ (dsDivisor use10 ^ 8 ≤ |q| →
      ParsedJson.get_datasize_as_human kvs key suffix dflt use10
        = .str (fmtFixed (q / dsDivisor use10 ^ 8) 1 ++ " "
            ++ (if use10 then "Y" else "Yi") ++ suffix))
    ∧ ParsedJson.get_datasize_as_human [("size", .int 999)] "size" "B" .null true
      = .str "999.0 B"
    ∧ ParsedJson.get_datasize_as_human [("size", .int 1000)] "size" "B" .null true
      = .str "1.0 kB"
    ∧ ParsedJson.get_datasize_as_human [("size", .int 1024)] "size" "B" .null false
      = .str "1.0 kiB" := by
  have hd0 : (0 : Rat) < dsDivisor use10 := by cases use10 <;> norm_num [dsDivisor]
  have hd1 : (1 : Rat) ≤ dsDivisor use10 := by cases use10 <;> norm_num [dsDivisor]
  have hbody : ParsedJson.get_datasize_as_human kvs key suffix dflt use10
      = .str (dsLoop use10 suffix (dsDivisor use10) q dsUnits) := by
    simp [ParsedJson.get_datasize_as_human, ParsedJson.get_datasize_as_human_body,
      ParsedJson.getItem, hv, hq]
  refine ⟨?_, ?_, by with_unfolding_all rfl, by with_unfolding_all rfl,
    by with_unfolding_all rfl⟩
  · intro k hk8 hk0 hlt
    have hbound : ∀ j, j < k → dsDivisor use10 ^ (j + 1) ≤ |q| := by
      intro j hj
      rcases hk0 with rfl | hk0
      · exact absurd hj (Nat.not_lt_zero j)
      · calc dsDivisor use10 ^ (j + 1) ≤ dsDivisor use10 ^ k :=
              pow_le_pow_right₀ hd1 (by omega)
          _ ≤ |q| := hk0
    have habs : |q / dsDivisor use10 ^ k| < dsDivisor use10 := by
      rw [abs_div, abs_of_pos (pow_pos hd0 k), div_lt_iff₀ (pow_pos hd0 k),
        ← pow_succ']
      exact hlt
    rw [hbody, dsLoop_drop use10 suffix _ hd0 k dsUnits q
      (by simp [dsUnits]; omega) hbound]
    interval_cases k <;>
      · simp only [dsUnits, List.drop_succ_cons, List.drop_zero]
        rw [dsLoop_cons_lt use10 suffix (dsDivisor use10) _ _ _ habs]
        cases use10 <;> simp [dsUnitStr, dsUnits, string_append_assoc]
  · intro h8
    have hbound : ∀ j, j < 8 → dsDivisor use10 ^ (j + 1) ≤ |q| := by
      intro j hj
      calc dsDivisor use10 ^ (j + 1) ≤ dsDivisor use10 ^ 8 :=
            pow_le_pow_right₀ hd1 (by omega)
        _ ≤ |q| := h8
    rw [hbody, dsLoop_drop use10 suffix _ hd0 8 dsUnits q (by simp [dsUnits]) hbound]
    simp [dsUnits, dsLoop]

/-- C3 witness: the value 2500 at key "size" in base-10 mode is rendered at
unit position 1 — as 2500 divided by 1000 with the "k" prefix — i.e. as
"2.5 kB". -/
theorem C3_witness :
    ParsedJson.get_datasize_as_human [("size", .str "2500")] "size" "B" .null true
      = .str (fmtFixed ((2500 : Rat) / dsDivisor true ^ 1) 1 ++ " "
          ++ dsUnitStr 1 true ++ "B")
    ∧ ParsedJson.get_datasize_as_human [("size", .str "2500")] "size" "B" .null true
      = .str "2.5 kB" := by
  have h := (C3_datasize_unit_scaling [("size", .str "2500")] "size" "B" .null true
      (.str "2500") 2500 rfl (by with_unfolding_all rfl)).1 1 (by omega)
      (Or.inr (by with_unfolding_all decide)) (by with_unfolding_all decide)
  exact ⟨h, h.trans (by with_unfolding_all rfl)⟩
